import Mathlib

/-!
Shallow embedding of the orchestration engine of
`pharma_full_automation.py` (class `PharmaceuticalFullAutomation`).

HTTP traffic is modelled by a response oracle (`Env`): each field of
`Env` gives the status code / payload that the remote GitHub or Zenodo
service returns for the corresponding request of one repository run.
The oracle is stateless (each request kind has one fixed response during
a run), which is the granularity the engine's control flow observes.
Exceptions raised by the HTTP library itself are not modelled: every
request yields a response, and failures surface as non-success status
codes, which are exactly the cases the step logic branches on.
Generated document bodies (README/citation/workflow templates) are
opaque string payloads per the specification's scope and are supplied by
the oracle field `genContent`.
-/

/-- Embeds the Python enum `AutomationLevel`. -/
inductive AutomationLevel
  | BASIC
  | PROFESSIONAL
  | RESEARCH_GRADE
  | ENTERPRISE
deriving DecidableEq, Repr

/-- The `.value` string of each `AutomationLevel` member. -/
def AutomationLevel.value : AutomationLevel → String
  | .BASIC => "basic"
  | .PROFESSIONAL => "professional"
  | .RESEARCH_GRADE => "research_grade"
  | .ENTERPRISE => "enterprise"

/-- Embeds the Python enum `BranchStrategy`. -/
inductive BranchStrategy
  | GITFLOW
  | GITHUB_FLOW
  | RESEARCH_FLOW
deriving DecidableEq, Repr

/-- The `.value` string of each `BranchStrategy` member. -/
def BranchStrategy.value : BranchStrategy → String
  | .GITFLOW => "gitflow"
  | .GITHUB_FLOW => "github_flow"
  | .RESEARCH_FLOW => "research_flow"

/-- Embeds the dataclass `AutomationConfig` with its field defaults. -/
structure AutomationConfig where
  github_token : String
  zenodo_token : Option String := none
  automation_level : AutomationLevel := .RESEARCH_GRADE
  branch_strategy : BranchStrategy := .RESEARCH_FLOW
  auto_release : Bool := true
  auto_doi : Bool := true
  auto_pr : Bool := true
  semantic_versioning : Bool := true
  quality_gates : Bool := true
deriving DecidableEq, Repr

/-- Response oracle for one repository run: the status codes and payloads the
remote services answer with.  Field names follow the request each one
answers; function-valued fields are keyed by branch and/or path. -/
structure Env where
  /-- status of `GET /repos/{username}/{repo}` in `setup_repository_structure` -/
  repoGetStatus : Nat
  /-- status of `POST /user/repos` -/
  repoCreateStatus : Nat
  /-- response text of the create call (used in the raised error message) -/
  repoCreateText : String
  /-- status of the settings `PATCH` (read but never checked by the source) -/
  settingsStatus : Nat
  /-- status of the branch-protection `PUT` -/
  protectionStatus : Nat
  /-- status of `GET git/refs/heads/main` in `get_main_branch_sha` -/
  mainRefStatus : Nat
  /-- sha payload of that ref read -/
  mainRefSha : String
  /-- status of `POST git/refs` creating a given branch -/
  createBranchStatus : String → Nat
  /-- status of `GET git/refs/heads/{branch}` in `upload_file_to_branch` -/
  refStatus : String → Nat
  /-- status of `GET contents/{path}?ref={branch}` (200 means the file exists) -/
  fileReadStatus : String → String → Nat
  /-- sha payload of that contents read -/
  fileReadSha : String → String → String
  /-- status of `PUT contents/{path}` for a given branch and path -/
  putStatus : String → String → Nat
  /-- generated document body for a given path (opaque payload per spec) -/
  genContent : String → String
  /-- status of `POST /pulls` -/
  prPostStatus : Nat
  /-- `number` field of the pull-request response -/
  prNumber : Nat
  /-- `html_url` field of the pull-request response -/
  prHtmlUrl : String
  /-- response text of a failed pull-request call -/
  prText : String
  /-- status of `GET /tags` in `create_automated_release` -/
  tagsStatus : Nat
  /-- `name` fields of the returned tag list, most recent first -/
  tagsList : List String
  /-- status of `POST /releases` -/
  releasePostStatus : Nat
  /-- `html_url` field of the release response -/
  releaseHtmlUrl : String
  /-- response text of a failed release call -/
  releaseText : String

/-- Return dict of `setup_repository_structure`. -/
structure SetupResult where
  status : String
  protection : Bool
deriving DecidableEq, Repr

/-- Embeds `setup_repository_structure`: create the repository when the
lookup 404s (raising on a failed create), then patch settings and put
branch protection.  `Except.error` models the raised exception. -/
def setupRepositoryStructure (env : Env) : Except String SetupResult :=
  if env.repoGetStatus = 404 then
    if env.repoCreateStatus ≠ 201 then
      .error ("Failed to create repository: " ++ env.repoCreateText)
    else
      .ok { status := "configured", protection := env.protectionStatus == 200 }
  else
    .ok { status := "configured", protection := env.protectionStatus == 200 }

/-- Embeds `get_main_branch_sha`: 200 yields the sha, anything else raises. -/
def getMainBranchSha (env : Env) : Except String String :=
  if env.mainRefStatus = 200 then .ok env.mainRefSha
  else .error "Failed to get main branch SHA"

/-- The per-strategy plan dict (`branch_configs` in `implement_branch_strategy`). -/
structure BranchPlan where
  branches : List String
  protection : List String
  auto_merge : Bool
deriving DecidableEq, Repr

/-- Embeds the `branch_configs` table of `implement_branch_strategy`. -/
def branchConfigs : BranchStrategy → BranchPlan
  | .RESEARCH_FLOW =>
    { branches := ["main", "develop", "feature/", "research/", "manuscript/", "release/"],
      protection := ["main", "develop"], auto_merge := true }
  | .GITFLOW =>
    { branches := ["main", "develop", "feature/", "release/", "hotfix/"],
      protection := ["main", "develop"], auto_merge := true }
  | .GITHUB_FLOW =>
    { branches := ["main", "feature/"], protection := ["main"], auto_merge := true }

/-- The hard-coded `branches_to_create` list of `implement_branch_strategy`. -/
def branchesToCreate : List String :=
  ["develop", "research/pharmaceutical-enhancement", "manuscript/auto-generation"]

/-- The branch-creation loop of `implement_branch_strategy`: for each branch,
fetch the main sha (raising if that fails) and `POST git/refs`; a 201
appends the branch to the created list.  Returns the created branches
together with the list of branches a create request was issued for. -/
def createBranchLoop (env : Env) : List String → Except String (List String × List String)
  | [] => .ok ([], [])
  | b :: rest => do
    let _sha ← getMainBranchSha env
    let (created, attempted) ← createBranchLoop env rest
    if env.createBranchStatus b = 201 then
      .ok (b :: created, b :: attempted)
    else
      .ok (created, b :: attempted)

/-- Return dict of `implement_branch_strategy`. -/
structure BranchStepResult where
  branches : List String
  strategy : String
deriving DecidableEq, Repr

/-- Embeds `implement_branch_strategy`.  The resolved plan is computed but
only its `auto_merge` flag is read (it gates the no-op
`setup_auto_merge_policies`).  The second component of the result records
which branch-create requests were issued, in order. -/
def implementBranchStrategy (env : Env) (strat : BranchStrategy) :
    Except String (BranchStepResult × List String) := do
  let plan := branchConfigs strat
  let (created, attempted) ← createBranchLoop env branchesToCreate
  let _autoMerge := plan.auto_merge
  .ok ({ branches := created, strategy := strat.value }, attempted)

/-- Base64 alphabet. -/
def b64Chars : List Char :=
  "ABCDEFGHIJKLMNOPQRSTUVWXYZabcdefghijklmnopqrstuvwxyz0123456789+/".toList

/-- Character for one base64 sextet. -/
def b64Char (i : Nat) : Char := b64Chars.getD i 'A'

/-- Base64 encoding of a byte list (RFC 4648, with padding), embedding the
`base64.b64encode` call of `upload_file_to_branch`. -/
def b64EncodeBytes : List Nat → List Char
  | [] => []
  | [a] => [b64Char (a / 4), b64Char (a % 4 * 16), '=', '=']
  | [a, b] => [b64Char (a / 4), b64Char (a % 4 * 16 + b / 16), b64Char (b % 16 * 4), '=']
  | a :: b :: c :: rest =>
    b64Char (a / 4) :: b64Char (a % 4 * 16 + b / 16) ::
      b64Char (b % 16 * 4 + c / 64) :: b64Char (c % 64) :: b64EncodeBytes rest

/-- UTF-8 encoding of one character (the byte list `content.encode('utf-8')`
produces for it). -/
def utf8Bytes (c : Char) : List Nat :=
  let n := c.toNat
  if n < 128 then [n]
  else if n < 2048 then [192 + n / 64, 128 + n % 64]
  else if n < 65536 then [224 + n / 4096, 128 + n / 64 % 64, 128 + n % 64]
  else [240 + n / 262144, 128 + n / 4096 % 64, 128 + n / 64 % 64, 128 + n % 64]

/-- `base64.b64encode(content.encode('utf-8')).decode('utf-8')`. -/
def base64Encode (s : String) : String :=
  String.mk (b64EncodeBytes (List.flatten (s.toList.map utf8Bytes)))

/-- The `upload_data` body of the contents `PUT` in `upload_file_to_branch`. -/
structure UploadRequest where
  message : String
  content : String
  branch : String
  sha : Option String
deriving DecidableEq, Repr

/-- Embeds `upload_file_to_branch`: check the branch ref (non-200 aborts with
no write), read the file's current metadata, include its `sha` in the
`PUT` body exactly when that read returned 200, then issue the `PUT`
(success on 200/201).  The second component records the issued write
request, `none` when no write was issued. -/
def uploadFileToBranch (env : Env) (repo branch path content msg : String) :
    Bool × Option UploadRequest :=
  if env.refStatus branch ≠ 200 then (false, none)
  else
    let fileStatus := env.fileReadStatus branch path
    let req0 : UploadRequest :=
      { message := msg, content := base64Encode content, branch := branch, sha := none }
    let req :=
      if fileStatus = 200 then { req0 with sha := some (env.fileReadSha branch path) }
      else req0
    let uploadStatus := env.putStatus branch path
    if uploadStatus = 200 ∨ uploadStatus = 201 then (true, some req) else (false, some req)

/-- Embeds `generate_comprehensive_content`: eight uploads in source order;
each path is appended to `files_created` unconditionally — the boolean
returned by `upload_file_to_branch` is discarded, exactly as in the
source.  Returns the `files` entry of the step's result dict. -/
def generateComprehensiveContent (env : Env) (repo : String) : List String :=
  let files0 : List String := []
  let _u1 := uploadFileToBranch env repo "develop" "README.md"
    (env.genContent "README.md") "🤖 Automated README generation with full pipeline"
  let files1 := files0 ++ ["README.md"]
  let _u2 := uploadFileToBranch env repo "develop" "CITATION.cff"
    (env.genContent "CITATION.cff") "📋 Automated CITATION.cff with research team"
  let files2 := files1 ++ ["CITATION.cff"]
  let _u3 := uploadFileToBranch env repo "develop" ".github/workflows/full_automation.yml"
    (env.genContent ".github/workflows/full_automation.yml") "⚙️ Full automation CI/CD pipeline"
  let files3 := files2 ++ [".github/workflows/full_automation.yml"]
  let _u4 := uploadFileToBranch env repo "develop" ".github/workflows/automated_release.yml"
    (env.genContent ".github/workflows/automated_release.yml") "🎉 Automated release and DOI generation"
  let files4 := files3 ++ [".github/workflows/automated_release.yml"]
  let _u5 := uploadFileToBranch env repo "develop" ".github/workflows/quality_assurance.yml"
    (env.genContent ".github/workflows/quality_assurance.yml") "🔍 Automated quality assurance pipeline"
  let files5 := files4 ++ [".github/workflows/quality_assurance.yml"]
  let _u6 := uploadFileToBranch env repo "manuscript/auto-generation" "MANUSCRIPT.md"
    (env.genContent "MANUSCRIPT.md") "📝 Auto-generated manuscript template"
  let files6 := files5 ++ ["MANUSCRIPT.md"]
  let _u7 := uploadFileToBranch env repo "develop" "DATA_MANAGEMENT.md"
    (env.genContent "DATA_MANAGEMENT.md") "📊 Automated data management plan"
  let files7 := files6 ++ ["DATA_MANAGEMENT.md"]
  let _u8 := uploadFileToBranch env repo "develop" ".automation/config.yml"
    (env.genContent ".automation/config.yml") "⚙️ Automation configuration"
  files7 ++ [".automation/config.yml"]

/-- The eight artifact paths of `generate_comprehensive_content`, in order. -/
def contentGenFiles : List String :=
  ["README.md", "CITATION.cff", ".github/workflows/full_automation.yml",
   ".github/workflows/automated_release.yml", ".github/workflows/quality_assurance.yml",
   "MANUSCRIPT.md", "DATA_MANAGEMENT.md", ".automation/config.yml"]

/-- The `workflows` entry returned by `setup_cicd_pipeline` (pure). -/
def setupCicdPipeline : List String :=
  ["full_automation.yml", "automated_release.yml", "quality_assurance.yml"]

/-- The `gates` entry returned by `setup_quality_gates` (pure). -/
def setupQualityGates : List String :=
  ["code_quality", "documentation_completeness", "research_integrity", "security_scan"]

/-- The `features` entry returned by `setup_monitoring_analytics` (pure). -/
def setupMonitoringAnalytics : List String :=
  ["repository_traffic_tracking", "automation_pipeline_monitoring",
   "quality_metrics_analysis", "collaboration_impact_measurement"]

/-- Return dict of `generate_zenodo_doi`. -/
structure DoiResult where
  success : Bool
  doi : Option String
  error : Option String
deriving DecidableEq, Repr

/-- Embeds `generate_zenodo_doi`: without Zenodo headers it fails with
"No Zenodo token"; with them it builds the metadata locally and returns
success with the fixed placeholder identifier — no request is issued
(the function consumes no `Env`). -/
def generateZenodoDoi (hasZenodoHeaders : Bool) : DoiResult :=
  if !hasZenodoHeaders then
    { success := false, doi := none, error := some "No Zenodo token" }
  else
    { success := true, doi := some "10.5281/zenodo.XXXXXXX", error := none }

/-- Return dict of `create_automated_pull_request`. -/
structure PrResult where
  success : Bool
  pr_number : Option Nat
  url : Option String
  error : Option String
deriving DecidableEq, Repr

/-- Embeds `create_automated_pull_request`: one `POST /pulls`; 201 yields
success with number and url, anything else a failure dict.  All errors
are caught inside the function, so it never raises to the engine. -/
def createAutomatedPullRequest (env : Env) : PrResult :=
  if env.prPostStatus = 201 then
    { success := true, pr_number := some env.prNumber, url := some env.prHtmlUrl, error := none }
  else
    { success := false, pr_number := none, url := none, error := some env.prText }

/-- Embeds the regex step `re.match(r'v?(\d+)\.(\d+)\.(\d+)', s)` of
`create_automated_release`: an optional leading lowercase `v`, then three
dot-separated digit runs anchored at the start; trailing characters are
ignored. -/
def reMatchVersion (s : String) : Option (Nat × Nat × Nat) :=
  let cs := s.toList
  let cs1 := if cs.head? = some 'v' then cs.tail else cs
  let d1 := cs1.takeWhile Char.isDigit
  let r1 := cs1.dropWhile Char.isDigit
  if d1.isEmpty then none else
    match r1 with
    | '.' :: r2 =>
      let d2 := r2.takeWhile Char.isDigit
      let r3 := r2.dropWhile Char.isDigit
      if d2.isEmpty then none else
        match r3 with
        | '.' :: r4 =>
          let d3 := r4.takeWhile Char.isDigit
          if d3.isEmpty then none else
            some (d1.foldl (fun acc c => acc * 10 + (c.toNat - 48)) 0,
                  d2.foldl (fun acc c => acc * 10 + (c.toNat - 48)) 0,
                  d3.foldl (fun acc c => acc * 10 + (c.toNat - 48)) 0)
        | _ => none
    | _ => none

/-- The version computation of `create_automated_release` (lines 1422-1433):
with a 200 tag listing and a nonempty tag list, parse the first tag and
bump MINOR, resetting PATCH; in every other case `v1.0.0`.  The
automation level is never consulted. -/
def computeNewVersion (status : Nat) (tags : List String) : String :=
  if status = 200 ∧ tags ≠ [] then
    match tags.head? with
    | some current =>
      match reMatchVersion current with
      | some (major, minor, _patch) => s!"v{major}.{minor + 1}.0"
      | none => "v1.0.0"
    | none => "v1.0.0"
  else "v1.0.0"

/-- Return dict of `create_automated_release`, extended with `requestedTag`:
the `tag_name` field of the issued `POST /releases` body, recorded for
specification purposes. -/
structure ReleaseOutcome where
  success : Bool
  version : Option String
  url : Option String
  error : Option String
  requestedTag : Option String
deriving DecidableEq, Repr

/-- Embeds `create_automated_release`: list tags, compute the new version,
and `POST /releases`; 201 yields success with the version, anything else
a failure dict.  All errors are caught inside the function. -/
def createAutomatedRelease (env : Env) : ReleaseOutcome :=
  let newVersion := computeNewVersion env.tagsStatus env.tagsList
  if env.releasePostStatus = 201 then
    { success := true, version := some newVersion, url := some env.releaseHtmlUrl,
      error := none, requestedTag := some newVersion }
  else
    { success := false, version := none, url := none,
      error := some env.releaseText, requestedTag := some newVersion }

/-- The `automation_result` dict of `initialize_repository_automation`. -/
structure AutomationResult where
  repository : String
  automation_level : String
  branch_strategy : String
  steps_completed : List String
  artifacts_created : List String
  urls_generated : List String
  doi : Option String
  success : Bool
  error : Option String
deriving DecidableEq, Repr

/-- The initial `automation_result` value built at the top of
`initialize_repository_automation`. -/
def initialResult (cfg : AutomationConfig) (repo : String) : AutomationResult :=
  { repository := repo
    automation_level := cfg.automation_level.value
    branch_strategy := cfg.branch_strategy.value
    steps_completed := []
    artifacts_created := []
    urls_generated := []
    doi := none
    success := false
    error := none }

/-- Step names that the engine runs unconditionally (steps 1-5 and 9). -/
def mandatoryStepNames : List String :=
  ["repository_setup", "branch_strategy", "content_generation",
   "cicd_pipeline", "quality_gates", "monitoring_analytics"]

/-- The ordered list of step names whose step functions execute on a run
where steps 1 and 2 succeed: steps 3-9 cannot raise, so the gated
optional steps and step 9 all execute. -/
def okTrace (cfg : AutomationConfig) : List String :=
  ["repository_setup", "branch_strategy", "content_generation", "cicd_pipeline", "quality_gates"]
    ++ (if cfg.auto_doi && cfg.zenodo_token.isSome then ["zenodo_doi"] else [])
    ++ (if cfg.auto_pr then ["automated_pr"] else [])
    ++ (if cfg.auto_release then ["automated_release"] else [])
    ++ ["monitoring_analytics"]

/-- Embeds `initialize_repository_automation`.  The first component is the
returned `automation_result`; the second is the ordered list of step
names whose step functions were invoked (the execution trace, recording
which remote side effects could occur).  The `try` block is modelled by
the two matches: only steps 1 and 2 can raise (steps 3-9 catch their own
errors or perform no fallible work), and a raise skips every later step
and lands in the `except` branch, which stores the message under
`error`. -/
def initializeRepositoryAutomation (cfg : AutomationConfig) (env : Env) (repo : String) :
    AutomationResult × List String :=
  let r0 := initialResult cfg repo
  match setupRepositoryStructure env with
  | .error e => ({ r0 with error := some e }, ["repository_setup"])
  | .ok _repoSetup =>
    let r1 := { r0 with steps_completed := r0.steps_completed ++ ["repository_setup"] }
    match implementBranchStrategy env cfg.branch_strategy with
    | .error e => ({ r1 with error := some e }, ["repository_setup", "branch_strategy"])
    | .ok branchSetup =>
      let r2 := { r1 with
                  steps_completed := r1.steps_completed ++ ["branch_strategy"],
                  artifacts_created := r1.artifacts_created ++ branchSetup.1.branches }
      let files := generateComprehensiveContent env repo
      let r3 := { r2 with
                  steps_completed := r2.steps_completed ++ ["content_generation"],
                  artifacts_created := r2.artifacts_created ++ files }
      let _pipelineSetup := setupCicdPipeline
      let r4 := { r3 with steps_completed := r3.steps_completed ++ ["cicd_pipeline"] }
      let _qualitySetup := setupQualityGates
      let r5 := { r4 with steps_completed := r4.steps_completed ++ ["quality_gates"] }
      let r6 :=
        if cfg.auto_doi && cfg.zenodo_token.isSome then
          let doiResult := generateZenodoDoi cfg.zenodo_token.isSome
          if doiResult.success then
            { r5 with doi := doiResult.doi,
                      steps_completed := r5.steps_completed ++ ["zenodo_doi"] }
          else r5
        else r5
      let r7 :=
        if cfg.auto_pr then
          let _prResult := createAutomatedPullRequest env
          { r6 with steps_completed := r6.steps_completed ++ ["automated_pr"] }
        else r6
      let r8 :=
        if cfg.auto_release then
          let _releaseResult := createAutomatedRelease env
          { r7 with steps_completed := r7.steps_completed ++ ["automated_release"] }
        else r7
      let _monitoringSetup := setupMonitoringAnalytics
      let r9 := { r8 with
                  steps_completed := r8.steps_completed ++ ["monitoring_analytics"],
                  success := true,
                  urls_generated :=
                    [s!"https://github.com/wisith007/{repo}",
                     s!"https://github.com/wisith007/{repo}/actions",
                     s!"https://github.com/wisith007/{repo}/releases"] }
      (r9, okTrace cfg)

/-- The `automation_result` a run produces when steps 1 and 2 succeed with
`created` branches: every step name in order, artifacts from branches
and generated files, the three repository URLs, the placeholder DOI when
the DOI step is gated on, and `success := true`. -/
def okResult (cfg : AutomationConfig) (repo : String) (created : List String) :
    AutomationResult :=
  { repository := repo
    automation_level := cfg.automation_level.value
    branch_strategy := cfg.branch_strategy.value
    steps_completed := okTrace cfg
    artifacts_created := created ++ contentGenFiles
    urls_generated :=
      [s!"https://github.com/wisith007/{repo}",
       s!"https://github.com/wisith007/{repo}/actions",
       s!"https://github.com/wisith007/{repo}/releases"]
    doi := if cfg.auto_doi && cfg.zenodo_token.isSome then some "10.5281/zenodo.XXXXXXX" else none
    success := true
    error := none }

/-- The optional-step response fields of an `Env` (pull request, tag
listing, release). -/
structure OptOutcomes where
  prPostStatus : Nat
  prNumber : Nat
  prHtmlUrl : String
  prText : String
  tagsStatus : Nat
  tagsList : List String
  releasePostStatus : Nat
  releaseHtmlUrl : String
  releaseText : String

/-- Replace the optional-step responses of an `Env`. -/
def withOptOutcomes (env : Env) (o : OptOutcomes) : Env :=
  { env with
    prPostStatus := o.prPostStatus, prNumber := o.prNumber, prHtmlUrl := o.prHtmlUrl,
    prText := o.prText, tagsStatus := o.tagsStatus, tagsList := o.tagsList,
    releasePostStatus := o.releasePostStatus, releaseHtmlUrl := o.releaseHtmlUrl,
    releaseText := o.releaseText }

/-- Boolean success test for an `Except` outcome. -/
def isOkB {α : Type} : Except String α → Bool
  | .ok _ => true
  | .error _ => false

/-- An oracle on which every remote call succeeds: the repository exists,
all branch creates return 201, no file pre-exists (contents reads 404),
all writes return 201, the tag list holds `v1.2.3`, and the PR and
release posts return 201. -/
def envOk : Env :=
  { repoGetStatus := 200, repoCreateStatus := 201, repoCreateText := "",
    settingsStatus := 200, protectionStatus := 200,
    mainRefStatus := 200, mainRefSha := "abc123",
    createBranchStatus := fun _ => 201,
    refStatus := fun _ => 200,
    fileReadStatus := fun _ _ => 404,
    fileReadSha := fun _ _ => "",
    putStatus := fun _ _ => 201,
    genContent := fun _ => "",
    prPostStatus := 201, prNumber := 7, prHtmlUrl := "https://github.com/wisith007/demo/pull/7",
    prText := "",
    tagsStatus := 200, tagsList := ["v1.2.3"],
    releasePostStatus := 201, releaseHtmlUrl := "https://github.com/wisith007/demo/releases/v1.3.0",
    releaseText := "" }

/-- `envOk` except the pull-request post fails with status 500. -/
def envPrFail : Env := { envOk with prPostStatus := 500, prText := "internal error" }

/-- `envOk` except the release post fails with status 422. -/
def envRelFail : Env := { envOk with releasePostStatus := 422, releaseText := "validation failed" }

/-- `envOk` except every contents write fails with status 500. -/
def envPutFail : Env := { envOk with putStatus := fun _ _ => 500 }

/-- `envOk` except the repository lookup 404s and the create fails, so
`setup_repository_structure` raises. -/
def envSetupFail : Env :=
  { envOk with repoGetStatus := 404, repoCreateStatus := 500, repoCreateText := "quota exceeded" }

/-- `envOk` except the file at each path pre-exists with sha `"oldsha"`. -/
def envFileExists : Env :=
  { envOk with fileReadStatus := fun _ _ => 200, fileReadSha := fun _ _ => "oldsha" }

/-- `envOk` with an empty tag listing. -/
def envNoTags : Env := { envOk with tagsList := [] }

/-- A fully-enabled configuration at automation level `basic`. -/
def cfgBasicFull : AutomationConfig :=
  { github_token := "ghtok", zenodo_token := some "zentok",
    automation_level := .BASIC, branch_strategy := .GITHUB_FLOW,
    auto_release := true, auto_doi := true, auto_pr := true,
    semantic_versioning := true, quality_gates := true }

/-- A configuration whose DOI step is skipped (flag off, no credential). -/
def cfgNoDoi : AutomationConfig :=
  { github_token := "ghtok", zenodo_token := none,
    automation_level := .RESEARCH_GRADE, branch_strategy := .RESEARCH_FLOW,
    auto_release := true, auto_doi := false, auto_pr := true,
    semantic_versioning := true, quality_gates := true }

/-! ## Structural lemmas about the engine -/

theorem implementBranchStrategy_eq (env : Env) (s : BranchStrategy) :
    implementBranchStrategy env s =
      (createBranchLoop env branchesToCreate).map
        (fun p => ({ branches := p.1, strategy := s.value }, p.2)) := by
  cases h : createBranchLoop env branchesToCreate <;>
    simp only [implementBranchStrategy, h, Except.map] <;> rfl

theorem createBranchLoop_ok (env : Env) (h : env.mainRefStatus = 200) (l : List String) :
    createBranchLoop env l =
      .ok (l.filter (fun b => env.createBranchStatus b == 201), l) := by
  induction l with
  | nil => simp [createBranchLoop]
  | cons b rest ih =>
      by_cases hb : env.createBranchStatus b = 201 <;>
        simp [createBranchLoop, getMainBranchSha, h, ih, List.filter_cons, hb] <;> rfl

theorem createBranchLoop_err (env : Env) (h : env.mainRefStatus ≠ 200)
    (b : String) (rest : List String) :
    createBranchLoop env (b :: rest) = .error "Failed to get main branch SHA" := by
  simp [createBranchLoop, getMainBranchSha, h]
  rfl

theorem init_err1 (cfg : AutomationConfig) (env : Env) (repo : String) (e : String)
    (h : setupRepositoryStructure env = .error e) :
    initializeRepositoryAutomation cfg env repo =
      ({ initialResult cfg repo with error := some e }, ["repository_setup"]) := by
  unfold initializeRepositoryAutomation
  rw [h]

theorem init_err2 (cfg : AutomationConfig) (env : Env) (repo : String)
    (s : SetupResult) (e : String)
    (h1 : setupRepositoryStructure env = .ok s)
    (h2 : implementBranchStrategy env cfg.branch_strategy = .error e) :
    initializeRepositoryAutomation cfg env repo =
      ({ initialResult cfg repo with steps_completed := ["repository_setup"], error := some e },
       ["repository_setup", "branch_strategy"]) := by
  unfold initializeRepositoryAutomation
  rw [h1, h2]
  simp [initialResult]

theorem init_ok (cfg : AutomationConfig) (env : Env) (repo : String) (s : SetupResult)
    (created attempted : List String)
    (h1 : setupRepositoryStructure env = .ok s)
    (h2 : createBranchLoop env branchesToCreate = .ok (created, attempted)) :
    initializeRepositoryAutomation cfg env repo = (okResult cfg repo created, okTrace cfg) := by
  have hb := implementBranchStrategy_eq env cfg.branch_strategy
  rw [h2] at hb
  simp only [Except.map] at hb
  have hgen : generateComprehensiveContent env repo = contentGenFiles := rfl
  unfold initializeRepositoryAutomation
  rw [h1, hb]
  cases hgate : (cfg.auto_doi && cfg.zenodo_token.isSome) with
  | true =>
      have hz : cfg.zenodo_token.isSome = true := (Bool.and_eq_true _ _ |>.mp hgate).2
      have hd : cfg.auto_doi = true := (Bool.and_eq_true _ _ |>.mp hgate).1
      cases hpr : cfg.auto_pr <;> cases hrel : cfg.auto_release <;>
        simp [okResult, okTrace, initialResult, hgate, hz, hd, hpr, hrel,
              generateZenodoDoi, hgen]
  | false =>
      cases hpr : cfg.auto_pr <;> cases hrel : cfg.auto_release <;>
        simp [okResult, okTrace, initialResult, hgate, hpr, hrel, hgen]

theorem success_eq (cfg : AutomationConfig) (env : Env) (repo : String) :
    (initializeRepositoryAutomation cfg env repo).1.success =
      (isOkB (setupRepositoryStructure env) && isOkB (createBranchLoop env branchesToCreate)) := by
  cases h1 : setupRepositoryStructure env with
  | error e => simp [init_err1 cfg env repo e h1, initialResult, isOkB]
  | ok s =>
    cases h2 : createBranchLoop env branchesToCreate with
    | error e =>
        have hb := implementBranchStrategy_eq env cfg.branch_strategy
        rw [h2] at hb
        simp only [Except.map] at hb
        simp [init_err2 cfg env repo s e h1 hb, initialResult, isOkB]
    | ok p =>
        obtain ⟨created, attempted⟩ := p
        simp [init_ok cfg env repo s created attempted h1 h2, okResult, isOkB]

theorem setup_withOpt (env : Env) (o : OptOutcomes) :
    setupRepositoryStructure (withOptOutcomes env o) = setupRepositoryStructure env := rfl

theorem createBranchLoop_withOpt (env : Env) (o : OptOutcomes) (l : List String) :
    createBranchLoop (withOptOutcomes env o) l = createBranchLoop env l := by
  induction l with
  | nil => rfl
  | cons b rest ih =>
      simp only [createBranchLoop]
      rw [ih]
      rfl

theorem okTrace_contains_mandatory (cfg : AutomationConfig) :
    mandatoryStepNames.all (fun n => (okTrace cfg).contains n) = true := by
  cases hd : (cfg.auto_doi && cfg.zenodo_token.isSome) <;>
  cases hp : cfg.auto_pr <;> cases hr : cfg.auto_release <;>
    simp [okTrace, mandatoryStepNames, hd, hp, hr]

/-! ## Claim theorems -/

/-- C1 (counterexample): a run whose pull-request creation fails (status 500)
produces an `AutomationResult` and execution trace identical to a run whose
pull-request creation succeeds, so the pull-request failure is nowhere
recorded, contradicting the claim's "their failures are still recorded". -/
theorem c1_pr_failure_unrecorded :
    initializeRepositoryAutomation cfgBasicFull envPrFail "demo" =
      initializeRepositoryAutomation cfgBasicFull envOk "demo"
    ∧ (createAutomatedPullRequest envPrFail).success = false
    ∧ (createAutomatedPullRequest envOk).success = true :=
  ⟨rfl, rfl, rfl⟩

/-- C1 (amended): `success` is true exactly when every mandatory step name is
in the completed-steps list; the optional steps' responses (pull request,
tag listing, release) never affect `success`, and neither does any part
of the configuration — but the pull-request and release failures are not
recorded on the result (see the counterexample). -/
theorem c1_success_iff_mandatory_amended :
    ∀ (cfg : AutomationConfig) (env : Env) (repo : String),
      ((initializeRepositoryAutomation cfg env repo).1.success = true ↔
        mandatoryStepNames.all
          (fun n => (initializeRepositoryAutomation cfg env repo).1.steps_completed.contains n)
            = true)
      ∧ (∀ o o₂ : OptOutcomes,
          (initializeRepositoryAutomation cfg (withOptOutcomes env o) repo).1.success =
            (initializeRepositoryAutomation cfg (withOptOutcomes env o₂) repo).1.success)
      ∧ (∀ cfg₂ : AutomationConfig,
          (initializeRepositoryAutomation cfg₂ env repo).1.success =
            (initializeRepositoryAutomation cfg env repo).1.success) := by
  intro cfg env repo
  refine ⟨?_, ?_, ?_⟩
  · cases h1 : setupRepositoryStructure env with
    | error e => simp [init_err1 cfg env repo e h1, initialResult, mandatoryStepNames]
    | ok s =>
      cases h2 : createBranchLoop env branchesToCreate with
      | error e =>
          have hb := implementBranchStrategy_eq env cfg.branch_strategy
          rw [h2] at hb
          simp only [Except.map] at hb
          simp [init_err2 cfg env repo s e h1 hb, initialResult, mandatoryStepNames]
      | ok p =>
          obtain ⟨created, attempted⟩ := p
          rw [init_ok cfg env repo s created attempted h1 h2]
          exact ⟨fun _ => okTrace_contains_mandatory cfg, fun _ => rfl⟩
  · intro o o₂
    rw [success_eq cfg (withOptOutcomes env o) repo,
        success_eq cfg (withOptOutcomes env o₂) repo,
        setup_withOpt, setup_withOpt,
        createBranchLoop_withOpt, createBranchLoop_withOpt]
  · intro cfg₂
    rw [success_eq cfg₂ env repo, success_eq cfg env repo]

/-- C2 (counterexample): at automation level `basic` with prior tag `v1.2.3`
the release step requests tag `v1.3.0` (MINOR bumped, PATCH reset), not
`v1.2.4` as the claim states; the step never consults the level. -/
theorem c2_basic_level_still_bumps_minor :
    cfgBasicFull.automation_level = .BASIC
    ∧ "automated_release" ∈ (initializeRepositoryAutomation cfgBasicFull envOk "demo").2
    ∧ envOk.tagsStatus = 200 ∧ envOk.tagsList = ["v1.2.3"]
    ∧ (createAutomatedRelease envOk).requestedTag = some "v1.3.0"
    ∧ ("v1.3.0" : String) ≠ "v1.2.4" := by
  refine ⟨rfl, ?_, rfl, rfl, rfl, by decide⟩
  decide

/-- C2 (amended): for every prior tag whose name parses as `vA.B.C`, the next
release tag is `vA.(B+1).0`, whatever the automation level — the release
step's version computation reads no configuration at all. -/
theorem c2_next_tag_bumps_minor_amended (env : Env) (t : String) (rest : List String)
    (A B C : Nat)
    (h1 : env.tagsStatus = 200) (h2 : env.tagsList = t :: rest)
    (h3 : reMatchVersion t = some (A, B, C)) :
    (createAutomatedRelease env).requestedTag = some s!"v{A}.{B + 1}.0" := by
  have hc : computeNewVersion env.tagsStatus env.tagsList = s!"v{A}.{B + 1}.0" := by
    rw [h1, h2]
    simp [computeNewVersion, h3]
  unfold createAutomatedRelease
  by_cases hrel : env.releasePostStatus = 201 <;> simp [hrel, hc]

/-- Witness for C2's amended theorem at tag `v1.2.3`. -/
theorem c2_next_tag_bumps_minor_amended_witness :
    envOk.tagsStatus = 200 ∧ envOk.tagsList = ["v1.2.3"]
    ∧ reMatchVersion "v1.2.3" = some (1, 2, 3)
    ∧ (createAutomatedRelease envOk).requestedTag = some "v1.3.0" := by
  refine ⟨rfl, rfl, by decide, ?_⟩
  have h := c2_next_tag_bumps_minor_amended envOk "v1.2.3" [] 1 2 3 rfl rfl (by decide)
  rw [h]
  decide

/-- C3: whenever `upload_file_to_branch` issues a write request, that request
carries the content hash returned by the preceding contents read exactly
when that read returned 200 (the file pre-exists), and no hash otherwise;
in particular no issued write ever omits the hash of a pre-existing file. -/
theorem c3_upload_includes_sha_iff_file_exists (env : Env)
    (repo branch path content msg : String) (req : UploadRequest)
    (h : (uploadFileToBranch env repo branch path content msg).2 = some req) :
    req.sha = (if env.fileReadStatus branch path = 200
               then some (env.fileReadSha branch path) else none) := by
  by_cases href : env.refStatus branch = 200
  · by_cases hf : env.fileReadStatus branch path = 200 <;>
    by_cases hput : (env.putStatus branch path = 200 ∨ env.putStatus branch path = 201) <;>
      simp [uploadFileToBranch, href, hf, hput] at h <;>
      simp [hf, ← h]
  · simp [uploadFileToBranch, href] at h

/-- Witness for C3 at a pre-existing file with hash `oldsha`. -/
theorem c3_upload_includes_sha_iff_file_exists_witness :
    (uploadFileToBranch envFileExists "demo" "develop" "README.md" "hello" "msg").2 =
      some { message := "msg", content := "aGVsbG8=", branch := "develop",
             sha := some "oldsha" }
    ∧ (some "oldsha" : Option String) =
        (if envFileExists.fileReadStatus "develop" "README.md" = 200
         then some (envFileExists.fileReadSha "develop" "README.md") else none) :=
  ⟨rfl, c3_upload_includes_sha_iff_file_exists envFileExists "demo" "develop" "README.md"
      "hello" "msg"
      { message := "msg", content := "aGVsbG8=", branch := "develop", sha := some "oldsha" }
      rfl⟩

/-- C4 (counterexample): on an oracle where every contents write fails with
status 500, the content-generation step still returns all eight paths —
including `README.md`, whose upload returned `false` — so the files list is
not "exactly the paths whose upload succeeded". -/
theorem c4_failed_upload_still_listed :
    generateComprehensiveContent envPutFail "demo" = contentGenFiles
    ∧ "README.md" ∈ contentGenFiles
    ∧ (uploadFileToBranch envPutFail "demo" "develop" "README.md"
        (envPutFail.genContent "README.md")
        "🤖 Automated README generation with full pipeline").1 = false :=
  ⟨rfl, by decide, rfl⟩

/-- C4 (amended): the content-generation step never raises and returns the
fixed list of eight paths for every oracle — per-artifact upload failures
are reflected only in the discarded per-upload boolean, not in the list. -/
theorem c4_files_list_fixed_amended :
    ∀ (env : Env) (repo : String), generateComprehensiveContent env repo = contentGenFiles :=
  fun _ _ => rfl

/-- C5: when the mandatory repository-setup step raises, the run's result has
`success = false`, the raised message in `error`, an empty completed-steps
list, and only step 1 in the execution trace — steps 2-9 never execute. -/
theorem c5_setup_failure_aborts_run (cfg : AutomationConfig) (env : Env) (repo msg : String)
    (h : setupRepositoryStructure env = .error msg) :
    (initializeRepositoryAutomation cfg env repo).1.success = false
    ∧ (initializeRepositoryAutomation cfg env repo).1.error = some msg
    ∧ (initializeRepositoryAutomation cfg env repo).1.steps_completed = []
    ∧ (initializeRepositoryAutomation cfg env repo).2 = ["repository_setup"] := by
  rw [init_err1 cfg env repo msg h]
  exact ⟨rfl, rfl, rfl, rfl⟩

/-- Witness for C5 where the repository create fails with status 500. -/
theorem c5_setup_failure_aborts_run_witness :
    setupRepositoryStructure envSetupFail =
      .error "Failed to create repository: quota exceeded"
    ∧ ((initializeRepositoryAutomation cfgBasicFull envSetupFail "demo").1.success = false
       ∧ (initializeRepositoryAutomation cfgBasicFull envSetupFail "demo").1.error =
           some "Failed to create repository: quota exceeded"
       ∧ (initializeRepositoryAutomation cfgBasicFull envSetupFail "demo").1.steps_completed = []
       ∧ (initializeRepositoryAutomation cfgBasicFull envSetupFail "demo").2 =
           ["repository_setup"]) :=
  ⟨rfl, c5_setup_failure_aborts_run cfgBasicFull envSetupFail "demo"
      "Failed to create repository: quota exceeded" rfl⟩

/-- C6 (counterexample): a run whose release creation fails (status 422)
produces an `AutomationResult` and trace identical to a run whose release
creation succeeds: the failing step's outcome is discarded, not recorded
on the result as the claim states. -/
theorem c6_release_failure_unrecorded :
    initializeRepositoryAutomation cfgBasicFull envRelFail "demo" =
      initializeRepositoryAutomation cfgBasicFull envOk "demo"
    ∧ (createAutomatedRelease envRelFail).success = false
    ∧ (createAutomatedRelease envRelFail).error = some "validation failed"
    ∧ (createAutomatedRelease envOk).success = true :=
  ⟨rfl, rfl, rfl, rfl⟩

/-- C6 (amended): optional-step failures are caught locally, never reach the
result's global `error` field, never flip `success`, and the sequence
continues through step 9 — but the failing step's own outcome is discarded
rather than recorded (see the counterexample). -/
theorem c6_optional_failure_nonfatal_amended (cfg : AutomationConfig) (env : Env)
    (repo : String) (s : SetupResult) (created attempted : List String)
    (h1 : setupRepositoryStructure env = .ok s)
    (h2 : createBranchLoop env branchesToCreate = .ok (created, attempted)) :
    (initializeRepositoryAutomation cfg env repo).1.error = none
    ∧ (initializeRepositoryAutomation cfg env repo).1.success = true
    ∧ "monitoring_analytics" ∈ (initializeRepositoryAutomation cfg env repo).2 := by
  rw [init_ok cfg env repo s created attempted h1 h2]
  refine ⟨rfl, rfl, ?_⟩
  simp [okTrace]

/-- Witness for C6's amended theorem on the oracle with a failing release. -/
theorem c6_optional_failure_nonfatal_amended_witness :
    setupRepositoryStructure envRelFail = .ok { status := "configured", protection := true }
    ∧ createBranchLoop envRelFail branchesToCreate = .ok (branchesToCreate, branchesToCreate)
    ∧ (createAutomatedRelease envRelFail).success = false
    ∧ ((initializeRepositoryAutomation cfgBasicFull envRelFail "demo").1.error = none
       ∧ (initializeRepositoryAutomation cfgBasicFull envRelFail "demo").1.success = true
       ∧ "monitoring_analytics" ∈
           (initializeRepositoryAutomation cfgBasicFull envRelFail "demo").2) :=
  ⟨rfl, rfl, rfl,
   c6_optional_failure_nonfatal_amended cfgBasicFull envRelFail "demo"
     { status := "configured", protection := true } branchesToCreate branchesToCreate rfl rfl⟩

/-- C7: whenever auto-release is enabled and the mandatory steps succeeded,
the release-creation step executes — for every configuration, so in
particular when the DOI step is skipped (flag off or credential absent);
the DOI step's gate and outcome never block the release step. -/
theorem c7_release_runs_despite_doi (cfg : AutomationConfig) (env : Env) (repo : String)
    (s : SetupResult) (created attempted : List String)
    (h1 : setupRepositoryStructure env = .ok s)
    (h2 : createBranchLoop env branchesToCreate = .ok (created, attempted))
    (h3 : cfg.auto_release = true) :
    "automated_release" ∈ (initializeRepositoryAutomation cfg env repo).2 := by
  rw [init_ok cfg env repo s created attempted h1 h2]
  simp [okTrace, h3]

/-- Witness for C7 with the DOI step skipped (no flag, no credential). -/
theorem c7_release_runs_despite_doi_witness :
    setupRepositoryStructure envOk = .ok { status := "configured", protection := true }
    ∧ createBranchLoop envOk branchesToCreate = .ok (branchesToCreate, branchesToCreate)
    ∧ cfgNoDoi.auto_release = true
    ∧ cfgNoDoi.auto_doi = false
    ∧ (initializeRepositoryAutomation cfgNoDoi envOk "demo").1.doi = none
    ∧ "automated_release" ∈ (initializeRepositoryAutomation cfgNoDoi envOk "demo").2 :=
  ⟨rfl, rfl, rfl, rfl, rfl,
   c7_release_runs_despite_doi cfgNoDoi envOk "demo"
     { status := "configured", protection := true } branchesToCreate branchesToCreate
     rfl rfl rfl⟩

/-- C8: when the tag listing returns an empty list or a non-200 status, the
release step requests tag `v1.0.0` (the computation reads no configuration,
so this holds for every automation level). -/
theorem c8_no_prior_tag_v100 (env : Env)
    (h : env.tagsStatus ≠ 200 ∨ env.tagsList = []) :
    (createAutomatedRelease env).requestedTag = some "v1.0.0" := by
  have hc : computeNewVersion env.tagsStatus env.tagsList = "v1.0.0" := by
    unfold computeNewVersion
    rcases h with h | h
    · rw [if_neg]
      intro hcon
      exact h hcon.1
    · rw [h]
      simp
  unfold createAutomatedRelease
  by_cases hrel : env.releasePostStatus = 201 <;> simp [hrel, hc]

/-- Witness for C8 on an empty tag list. -/
theorem c8_no_prior_tag_v100_witness :
    (envNoTags.tagsStatus ≠ 200 ∨ envNoTags.tagsList = [])
    ∧ (createAutomatedRelease envNoTags).requestedTag = some "v1.0.0" :=
  ⟨Or.inr rfl, c8_no_prior_tag_v100 envNoTags (Or.inr rfl)⟩

/-- C9: `generate_zenodo_doi` with headers configured succeeds with the fixed
placeholder identifier (it consumes no oracle, issuing no request), and
consequently the result's `doi` field, whenever set, equals that constant. -/
theorem c9_doi_placeholder_constant (cfg : AutomationConfig) (env : Env) (repo d : String)
    (h : (initializeRepositoryAutomation cfg env repo).1.doi = some d) :
    d = "10.5281/zenodo.XXXXXXX"
    ∧ generateZenodoDoi true =
        { success := true, doi := some "10.5281/zenodo.XXXXXXX", error := none } := by
  refine ⟨?_, rfl⟩
  cases h1 : setupRepositoryStructure env with
  | error e =>
      rw [init_err1 cfg env repo e h1] at h
      simp [initialResult] at h
  | ok s =>
    cases h2 : createBranchLoop env branchesToCreate with
    | error e =>
        have hb := implementBranchStrategy_eq env cfg.branch_strategy
        rw [h2] at hb
        simp only [Except.map] at hb
        rw [init_err2 cfg env repo s e h1 hb] at h
        simp [initialResult] at h
    | ok p =>
        obtain ⟨created, attempted⟩ := p
        rw [init_ok cfg env repo s created attempted h1 h2] at h
        simp only [okResult] at h
        by_cases hg : (cfg.auto_doi && cfg.zenodo_token.isSome) = true
        · rw [if_pos hg] at h
          exact (Option.some.inj h).symm
        · rw [Bool.not_eq_true] at hg
          rw [hg] at h
          simp at h

/-- Witness for C9 on a run whose DOI step is gated on. -/
theorem c9_doi_placeholder_constant_witness :
    (initializeRepositoryAutomation cfgBasicFull envOk "demo").1.doi =
      some "10.5281/zenodo.XXXXXXX"
    ∧ ("10.5281/zenodo.XXXXXXX" = "10.5281/zenodo.XXXXXXX"
       ∧ generateZenodoDoi true =
           { success := true, doi := some "10.5281/zenodo.XXXXXXX", error := none }) :=
  ⟨rfl, c9_doi_placeholder_constant cfgBasicFull envOk "demo" "10.5281/zenodo.XXXXXXX" rfl⟩

/-- C10: whenever the main-ref read succeeds, the branch-strategy step issues
create requests for exactly the three fixed branches, in order, creating
those whose post returns 201 — and the resolved plan plays no role: the
created branches and the attempted list are identical for every strategy. -/
theorem c10_branches_fixed_trio (env : Env) (s : BranchStrategy)
    (h : env.mainRefStatus = 200) :
    (implementBranchStrategy env s =
       .ok ({ branches := branchesToCreate.filter (fun b => env.createBranchStatus b == 201),
              strategy := s.value },
            branchesToCreate))
    ∧ (∀ s₂ : BranchStrategy,
        (implementBranchStrategy env s).map (fun r => (r.1.branches, r.2)) =
          (implementBranchStrategy env s₂).map (fun r => (r.1.branches, r.2))) := by
  constructor
  · rw [implementBranchStrategy_eq, createBranchLoop_ok env h]
    rfl
  · intro s₂
    rw [implementBranchStrategy_eq env s, implementBranchStrategy_eq env s₂]
    cases createBranchLoop env branchesToCreate <;> rfl

/-- Witness for C10 under the `github_flow` strategy. -/
theorem c10_branches_fixed_trio_witness :
    envOk.mainRefStatus = 200
    ∧ implementBranchStrategy envOk .GITHUB_FLOW =
        .ok ({ branches := branchesToCreate.filter
                 (fun b => envOk.createBranchStatus b == 201),
               strategy := BranchStrategy.GITHUB_FLOW.value },
             branchesToCreate) :=
  ⟨rfl, (c10_branches_fixed_trio envOk .GITHUB_FLOW rfl).1⟩
